import Mathlib

/-!
Verification of the message-relay core of `redis-db-server`
(`src/server.js`, the MySQL + Redis variant, and `src/server2.js`,
the Redis-only variant).

The embedding models:
* JSON values as an inductive AST (`Json`); `JSON.stringify`/`JSON.parse`
  on well-formed data are modelled at the value level (`Msg.toJson`,
  `Msg.fromJson`); an arbitrary bus payload string is fed through an
  abstract parse function `String → Option Json`, `none` standing for a
  `JSON.parse` exception.
* The Redis list as a `List Json` (each entry is the stringified message);
  `RPUSH` appends on the right, `LTRIM key -500 -1` keeps the last 500.
* The MySQL `messages` table as a `List SqlRow` in insertion order with an
  auto-increment id; `ORDER BY ts DESC LIMIT k` as a stable insertion sort
  by the descending-timestamp relation followed by `take`.
* Each `await`ed effect that can fail carries a Boolean failure flag; a
  failing effect throws, so control jumps to the enclosing `catch` and the
  remaining effects of the handler are skipped.  Log lines written by
  `console.log`/`console.error` are counted.
-/

namespace RedisChat

/-- JSON values as produced by `JSON.parse` / consumed by `JSON.stringify`. -/
inductive Json where
  | str (s : String)
  | num (n : Int)
  | bool (b : Bool)
  | null
  | arr (xs : List Json)
  | obj (fields : List (String × Json))

/-- A normalized chat message: the shape `{ username, text, ts }` that the
handlers persist and publish. -/
structure Msg where
  username : String
  text : String
  ts : Int
  deriving Repr, DecidableEq

/-- An incoming `send_message` payload.  Fields may be absent (`none`), and
JavaScript truthiness treats the empty string and the number 0 the same as
absent fields. -/
structure MsgInput where
  username : Option String
  text : Option String
  ts : Option Int

/-- JavaScript falsiness of an optional string field: `undefined` and `""`
are falsy, every other string is truthy. -/
def strFalsy : Option String → Bool
  | none => true
  | some s => s == ""

/-- JavaScript falsiness of an optional numeric field: `undefined` and `0`
are falsy, every other integer is truthy. -/
def numFalsy : Option Int → Bool
  | none => true
  | some n => n == 0

/-- `msgObj.ts = msgObj.ts || Date.now()` — both handlers, line
`server2.js:65` / `server.js:171`: a falsy timestamp is replaced by the
current wall-clock time, a truthy one is kept unchanged. -/
def normalizeTs (ts : Option Int) (now : Int) : Int :=
  if numFalsy ts then now else ts.getD 0

/-- `if (!msgObj || !msgObj.username || !msgObj.text) return;` — the
validation test both handlers apply (`server2.js:62`, `server.js:168`).
`true` means the submission is accepted. -/
def validInput (inp : MsgInput) : Bool :=
  !(strFalsy inp.username || strFalsy inp.text)

/-- The normalized message built from an accepted input. -/
def normalize (inp : MsgInput) (now : Int) : Msg :=
  { username := inp.username.getD ""
    text := inp.text.getD ""
    ts := normalizeTs inp.ts now }

/-- `JSON.stringify(msgObj)` at the value level: the serialized form that is
both `RPUSH`ed onto the Redis list and `PUBLISH`ed on the pubsub channel. -/
def Msg.toJson (m : Msg) : Json :=
  .obj [("username", .str m.username), ("text", .str m.text), ("ts", .num m.ts)]

/-- Field lookup in a parsed JSON value; non-objects have no fields. -/
def Json.getField (j : Json) (name : String) : Option Json :=
  match j with
  | .obj fields => fields.lookup name
  | _ => none

/-- Reading a parsed bus payload back as a message: the shape a client on
the receiving end observes.  Fails on non-objects or missing/ill-typed
fields. -/
def Msg.fromJson (j : Json) : Option Msg :=
  match j.getField "username", j.getField "text", j.getField "ts" with
  | some (.str u), some (.str t), some (.num n) => some ⟨u, t, n⟩
  | _, _, _ => none

/-- `LTRIM key -500 -1` generalized: keep the last `n` elements of the
list (all of them when the list is shorter). -/
def trimLast (n : Nat) (l : List α) : List α :=
  l.drop (l.length - n)

/-- `LRANGE key (-n) (-1)`: the last `n` elements in list order. -/
def lastN (n : Nat) (l : List α) : List α :=
  l.drop (l.length - n)

/-! ## server2.js — Redis-only variant -/

/-- Failure flags for the three `await`ed effects of the `server2.js`
`send_message` handler.  A `true` flag makes the corresponding effect
throw; the single surrounding `try/catch` then logs and abandons the rest
of the handler. -/
structure Ops2 where
  rPushFails : Bool
  lTrimFails : Bool
  publishFails : Bool

/-- All effects succeed. -/
def okOps2 : Ops2 := ⟨false, false, false⟩

/-- Observable outcome of one `send_message` invocation on `server2.js`:
the Redis list afterwards, the payloads published on the pubsub channel,
and the number of log lines written. -/
structure Out2 where
  list : List Json
  published : List Json
  logs : Nat

/-- The `send_message` handler of `server2.js` (lines 58–80):
validate lightly, default the timestamp, `RPUSH` the stringified message,
`LTRIM` to the last 500, `PUBLISH` the same stringified message.  Any
throwing effect jumps to the outer `catch`, which logs once. -/
def sendMessage2 (ops : Ops2) (now : Int) (st : List Json) (inp : MsgInput) : Out2 :=
  if !validInput inp then ⟨st, [], 0⟩
  else
    let m := normalize inp now
    if ops.rPushFails then ⟨st, [], 1⟩
    else
      let st1 := st ++ [m.toJson]
      if ops.lTrimFails then ⟨st1, [], 1⟩
      else
        let st2 := trimLast 500 st1
        if ops.publishFails then ⟨st2, [], 1⟩
        else ⟨st2, [m.toJson], 0⟩

/-- Run a sequence of submissions (each paired with the wall clock at its
accept time) through the `server2.js` handler with all effects succeeding,
starting from an empty Redis list. -/
def runAll2 (seq : List (MsgInput × Int)) : List Json :=
  seq.foldl (fun st p => (sendMessage2 okOps2 p.2 st p.1).list) []

/-! ## server.js — MySQL + Redis variant -/

/-- A row of the MySQL `messages` table: auto-increment id plus the stored
fields (`created_at` plays no role in any query and is omitted). -/
structure SqlRow where
  id : Nat
  username : String
  text : String
  ts : Int
  deriving Repr, DecidableEq

/-- The message fields a `SELECT username, text, ts` row yields. -/
def SqlRow.toMsg (r : SqlRow) : Msg :=
  ⟨r.username, r.text, r.ts⟩

/-- Descending-timestamp comparison used to model `ORDER BY ts DESC`. -/
def tsDesc (a b : SqlRow) : Prop := b.ts ≤ a.ts

instance : DecidableRel tsDesc := fun a b => inferInstanceAs (Decidable (b.ts ≤ a.ts))

instance : IsTotal SqlRow tsDesc := ⟨fun a b => le_total b.ts a.ts⟩

instance : IsTrans SqlRow tsDesc := ⟨fun _ _ _ h1 h2 => le_trans h2 h1⟩

/-- `SELECT username, text, ts FROM messages ORDER BY ts DESC LIMIT k`:
stable sort by descending `ts`, then the first `k` rows. -/
def selectRecentDesc (table : List SqlRow) (k : Nat) : List SqlRow :=
  (table.insertionSort tsDesc).take k

/-- State held by a `server.js` process: the MySQL table (with the next
auto-increment id) and the Redis list. -/
structure ServerState1 where
  table : List SqlRow
  nextId : Nat
  redis : List Json

/-- Failure flags for the four `await`ed effects of the `server.js`
`send_message` handler.  The MySQL insert sits in its own inner
`try/catch` (lines 174–181), so its failure only logs; the Redis and
pubsub effects are guarded only by the outer `try/catch`. -/
structure Ops1 where
  dbFails : Bool
  rPushFails : Bool
  lTrimFails : Bool
  publishFails : Bool

/-- All effects succeed. -/
def okOps1 : Ops1 := ⟨false, false, false, false⟩

/-- Observable outcome of one `send_message` invocation on `server.js`. -/
structure Out1 where
  state : ServerState1
  published : List Json
  logs : Nat

/-- The `send_message` handler of `server.js` (lines 158–198): validate
lightly, default the timestamp, INSERT into MySQL (failure logged by the
inner `catch`, execution continues), `RPUSH`, `LTRIM -500 -1`, `PUBLISH`.
A throwing Redis/pubsub effect jumps to the outer `catch`, which logs. -/
def sendMessage1 (ops : Ops1) (now : Int) (st : ServerState1) (inp : MsgInput) : Out1 :=
  if !validInput inp then ⟨st, [], 0⟩
  else
    let m := normalize inp now
    let st1 : ServerState1 :=
      if ops.dbFails then st
      else { st with
              table := st.table ++ [⟨st.nextId, m.username, m.text, m.ts⟩]
              nextId := st.nextId + 1 }
    let logs1 : Nat := if ops.dbFails then 1 else 0
    if ops.rPushFails then ⟨st1, [], logs1 + 1⟩
    else
      let st2 := { st1 with redis := st1.redis ++ [m.toJson] }
      if ops.lTrimFails then ⟨st2, [], logs1 + 1⟩
      else
        let st3 := { st2 with redis := trimLast 500 st2.redis }
        if ops.publishFails then ⟨st3, [], logs1 + 1⟩
        else ⟨st3, [m.toJson], logs1⟩

/-! ## History endpoints -/

/-- Leading-digit accumulation of `parseInt`: consume decimal digits until
the first non-digit; `none` when no digit was consumed (NaN). -/
def parseDigits : List Char → Option Nat → Option Nat
  | [], acc => acc
  | c :: cs, acc =>
    if c.isDigit then parseDigits cs (some ((acc.getD 0) * 10 + (c.toNat - 48)))
    else acc

/-- `parseInt(s, 10)`: skip leading spaces, optional sign, leading decimal
digits; `none` models NaN. -/
def jsParseInt (s : String) : Option Int :=
  let cs := s.toList.dropWhile (fun c => c == ' ')
  match cs with
  | '-' :: rest => (parseDigits rest none).map (fun d => -(d : Int))
  | '+' :: rest => (parseDigits rest none).map (fun d => (d : Int))
  | _ => (parseDigits cs none).map (fun d => (d : Int))

/-- `Math.min(parseInt(req.query.limit || '50', 10), 500)` — `server.js`
line 103.  The query parameter is a string, so the `||` fallback fires
only when it is absent or empty: `"0"` is a truthy string and is parsed.
`none` models NaN (`Math.min(NaN, 500)` is NaN). -/
def computeLimit (q : Option String) : Option Int :=
  let s := match q with
    | none => "50"
    | some s => if s == "" then "50" else s
  (jsParseInt s).map (fun n => min n 500)

/-- `GET /messages` of `server.js` (lines 102–125): compute the limit,
query MySQL for the most recent rows (ts descending), reverse to
oldest-first, and project the fields.  A NaN or negative `LIMIT` makes
the driver/SQL query throw, which the `catch` turns into a 500 response
(`.error ()`). -/
def getMessages1 (table : List SqlRow) (q : Option String) : Except Unit (List Msg) :=
  match computeLimit q with
  | none => .error ()
  | some k =>
    if k < 0 then .error ()
    else .ok (((selectRecentDesc table k.toNat).reverse).map SqlRow.toMsg)

/-- `GET /messages` of `server2.js` (lines 40–51): `LRANGE key -50 -1`
and `JSON.parse` each stored string.  The `limit` query parameter is
never read; the stored values are returned in list order. -/
def getMessages2 (st : List Json) (_q : Option String) : Except Unit (List Json) :=
  .ok (lastN 50 st)

/-! ## History-on-connect -/

/-- The connection handler of `server.js` (lines 128–153): fetch the 20
most recent rows ts-descending, reverse to oldest-first, and emit a single
`history` event iff the result is non-empty.  `none` means no event is
sent to the connecting socket. -/
def historyOnConnect1 (table : List SqlRow) : Option (List Msg) :=
  let history := ((selectRecentDesc table 20).reverse).map SqlRow.toMsg
  if history.length ≠ 0 then some history else none

/-- The connection handler of `server2.js` (lines 54–85) sends no history
snapshot: it only logs the connect and registers the `send_message` and
`disconnect` callbacks, so nothing is emitted to the new socket. -/
def historyOnConnect2 (_st : List Json) : Option (List Json) :=
  none

/-! ## Pubsub subscriber (both variants, identical logic) -/

/-- One bus delivery (`subClient.subscribe` callback, `server2.js:88–96`,
`server.js:212–222`): `JSON.parse` the payload; on success `io.emit` the
parsed value to every connected socket, on a parse exception log and drop.
Returns the values broadcast and the log-line count for this payload.
`parse` abstracts `JSON.parse`, with `none` for a thrown `SyntaxError`. -/
def onBusMessage (parse : String → Option Json) (s : String) : List Json × Nat :=
  match parse s with
  | some j => ([j], 0)
  | none => ([], 1)

/-- The standing subscription processing a sequence of bus payloads in
order, accumulating broadcasts and log lines. -/
def runSubscriber (parse : String → Option Json) (msgs : List String) :
    List Json × Nat :=
  msgs.foldl
    (fun acc s =>
      let r := onBusMessage parse s
      (acc.1 ++ r.1, acc.2 + r.2))
    ([], 0)

/-! ## Helper lemmas -/

/-- Ascending timestamp order on messages. -/
def msgAsc (a b : Msg) : Prop := a.ts ≤ b.ts

/-- A Redis list holding exactly 500 entries. -/
def fullList : List Json := List.replicate 500 Json.null

theorem trimLast_length_le (n : Nat) (l : List α) : (trimLast n l).length ≤ n := by
  simp only [trimLast, List.length_drop]
  omega

theorem trimLast_of_full (x : α) (l : List α) (h : l.length = 500) :
    trimLast 500 (l ++ [x]) = l.drop 1 ++ [x] := by
  have h1 : (l ++ [x]).length - 500 = 1 := by simp [h]
  rw [trimLast, h1, List.drop_append_of_le_length (by omega)]

theorem sendMessage2_length_le (now : Int) (st : List Json) (inp : MsgInput)
    (h : st.length ≤ 500) : (sendMessage2 okOps2 now st inp).list.length ≤ 500 := by
  unfold sendMessage2 okOps2
  by_cases hv : validInput inp <;>
    simp [hv, trimLast_length_le, h]

theorem runAll2_from (seq : List (MsgInput × Int)) (st : List Json)
    (h : st.length ≤ 500) :
    (seq.foldl (fun st p => (sendMessage2 okOps2 p.2 st p.1).list) st).length ≤ 500 := by
  induction seq generalizing st with
  | nil => exact h
  | cons p rest ih => exact ih _ (sendMessage2_length_le p.2 st p.1 h)

/-! ## Claim theorems -/

/-- C1: after every accepted submission the Redis message list holds at
most 500 entries; inserting into a full list of 500 drops exactly the
oldest entry and appends the new message; this holds along every sequence
of submissions, and the `server.js` handler preserves the same bound on
its Redis list. -/
theorem C1_retention_bound :
    (∀ seq : List (MsgInput × Int), (runAll2 seq).length ≤ 500) ∧
    (∀ (st : List Json) (inp : MsgInput) (now : Int),
        st.length = 500 → validInput inp = true →
        (sendMessage2 okOps2 now st inp).list =
          st.drop 1 ++ [(normalize inp now).toJson]) ∧
    (∀ (st : ServerState1) (inp : MsgInput) (now : Int),
        st.redis.length ≤ 500 →
        (sendMessage1 okOps1 now st inp).state.redis.length ≤ 500) := by
  refine ⟨fun seq => runAll2_from seq [] (by simp), ?_, ?_⟩
  · intro st inp now hlen hv
    simp [sendMessage2, okOps2, hv, trimLast_of_full _ _ hlen]
  · intro st inp now h
    unfold sendMessage1 okOps1
    by_cases hv : validInput inp <;>
      simp [hv, trimLast_length_le, h]

/-- Witness for C1 at concrete inputs. -/
theorem C1_retention_bound_witness :
    (runAll2 [(⟨some "a", some "hi", none⟩, 3)]).length ≤ 500 ∧
    (sendMessage2 okOps2 3 fullList ⟨some "a", some "hi", none⟩).list =
      fullList.drop 1 ++ [(normalize ⟨some "a", some "hi", none⟩ 3).toJson] ∧
    (sendMessage1 okOps1 3 ⟨[], 0, []⟩ ⟨some "a", some "hi", none⟩).state.redis.length ≤ 500 :=
  ⟨C1_retention_bound.1 _,
   C1_retention_bound.2.1 fullList _ 3 (List.length_replicate 500 Json.null) rfl,
   C1_retention_bound.2.2 ⟨[], 0, []⟩ _ 3 (by simp)⟩

/-- C5 (amended): a submission with a missing or empty `username` or
`text` leaves both stores untouched, publishes nothing, and — contrary to
the claim's "is logged" — writes no log line either: the handlers simply
`return`. -/
theorem C5_invalid_submission_noop :
    ∀ (ops2 : Ops2) (ops1 : Ops1) (st2 : List Json) (st1 : ServerState1)
      (inp : MsgInput) (now : Int), validInput inp = false →
      sendMessage2 ops2 now st2 inp = ⟨st2, [], 0⟩ ∧
      sendMessage1 ops1 now st1 inp = ⟨st1, [], 0⟩ := by
  intro ops2 ops1 st2 st1 inp now h
  constructor <;> simp [sendMessage2, sendMessage1, h]

/-- Witness for C5 at a concrete invalid submission (text missing). -/
theorem C5_invalid_submission_noop_witness :
    sendMessage2 okOps2 5 [] ⟨some "alice", none, none⟩ = ⟨[], [], 0⟩ ∧
    sendMessage1 okOps1 5 ⟨[], 0, []⟩ ⟨some "alice", none, none⟩ = ⟨⟨[], 0, []⟩, [], 0⟩ :=
  C5_invalid_submission_noop okOps2 okOps1 [] ⟨[], 0, []⟩ ⟨some "alice", none, none⟩ 5 rfl

/-- C5 counterexample to the "is logged" part: a submission with missing
`text` is rejected by validation yet produces zero log lines in both
handlers (the claim asserts the failure is logged). -/
theorem C5_counterexample_not_logged :
    validInput ⟨some "alice", none, none⟩ = false ∧
    (sendMessage2 okOps2 5 [] ⟨some "alice", none, none⟩).logs = 0 ∧
    (sendMessage1 okOps1 5 ⟨[], 0, []⟩ ⟨some "alice", none, none⟩).logs = 0 :=
  ⟨rfl, rfl, rfl⟩

/-- C6: an absent or zero (falsy) client timestamp is replaced by the
wall-clock time `now`; a truthy timestamp is preserved unchanged; and
under sequential submissions with a non-decreasing clock the
server-assigned timestamps are monotonically non-decreasing. -/
theorem C6_timestamp_normalization :
    (∀ (inp : MsgInput) (now : Int), numFalsy inp.ts = true →
        (normalize inp now).ts = now) ∧
    (∀ (inp : MsgInput) (now n : Int), inp.ts = some n → n ≠ 0 →
        (normalize inp now).ts = n) ∧
    (∀ (ts1 ts2 : Option Int) (now1 now2 : Int),
        numFalsy ts1 = true → numFalsy ts2 = true → now1 ≤ now2 →
        normalizeTs ts1 now1 ≤ normalizeTs ts2 now2) := by
  refine ⟨?_, ?_, ?_⟩
  · intro inp now h
    simp [normalize, normalizeTs, h]
  · intro inp now n h hn
    simp [normalize, normalizeTs, numFalsy, h, hn]
  · intro ts1 ts2 now1 now2 h1 h2 hle
    simp [normalizeTs, h1, h2, hle]

/-- Witness for C6 at concrete inputs. -/
theorem C6_timestamp_normalization_witness :
    (normalize ⟨some "a", some "t", none⟩ 9).ts = 9 ∧
    (normalize ⟨some "a", some "t", some 4⟩ 9).ts = 4 ∧
    normalizeTs (some 0) 7 ≤ normalizeTs none 8 :=
  ⟨C6_timestamp_normalization.1 ⟨some "a", some "t", none⟩ 9 rfl,
   C6_timestamp_normalization.2.1 ⟨some "a", some "t", some 4⟩ 9 4 rfl (by decide),
   C6_timestamp_normalization.2.2 (some 0) none 7 8 rfl rfl (by decide)⟩

/-- C7: for every accepted submission, one and the same serialized value
is appended to the Redis list and published on the pubsub channel (in both
server variants), and deserializing that published value yields exactly
the normalized message that was persisted. -/
theorem C7_persisted_equals_broadcast :
    ∀ (st2 : List Json) (st1 : ServerState1) (inp : MsgInput) (now : Int),
      validInput inp = true →
      ∃ j, (sendMessage2 okOps2 now st2 inp).published = [j] ∧
        (sendMessage2 okOps2 now st2 inp).list = trimLast 500 (st2 ++ [j]) ∧
        (sendMessage1 okOps1 now st1 inp).published = [j] ∧
        (sendMessage1 okOps1 now st1 inp).state.redis = trimLast 500 (st1.redis ++ [j]) ∧
        Msg.fromJson j = some (normalize inp now) := by
  intro st2 st1 inp now h
  refine ⟨(normalize inp now).toJson, ?_, ?_, ?_, ?_, rfl⟩ <;>
    simp [sendMessage2, sendMessage1, okOps2, okOps1, h]

/-- Witness for C7 at a concrete accepted submission. -/
theorem C7_persisted_equals_broadcast_witness :
    ∃ j, (sendMessage2 okOps2 7 [] ⟨some "alice", some "hi", none⟩).published = [j] ∧
      (sendMessage2 okOps2 7 [] ⟨some "alice", some "hi", none⟩).list =
        trimLast 500 ([] ++ [j]) ∧
      (sendMessage1 okOps1 7 ⟨[], 0, []⟩ ⟨some "alice", some "hi", none⟩).published = [j] ∧
      (sendMessage1 okOps1 7 ⟨[], 0, []⟩ ⟨some "alice", some "hi", none⟩).state.redis =
        trimLast 500 (([] : List Json) ++ [j]) ∧
      Msg.fromJson j = some (normalize ⟨some "alice", some "hi", none⟩ 7) :=
  C7_persisted_equals_broadcast [] ⟨[], 0, []⟩ ⟨some "alice", some "hi", none⟩ 7 rfl

/-- C2 counterexample: in `server2.js`, for a valid submission whose
Message Store write (the Redis `RPUSH`) fails, the outer `catch` swallows
the exception and the handler stops: nothing is published on the bus and
the store is unchanged — contradicting the claim that the message is
still published when persisting fails. -/
theorem C2_counterexample_store_failure_blocks_publish :
    validInput ⟨some "alice", some "hi", none⟩ = true ∧
    (sendMessage2 ⟨true, false, false⟩ 5 [] ⟨some "alice", some "hi", none⟩).published = [] ∧
    (sendMessage2 ⟨true, false, false⟩ 5 [] ⟨some "alice", some "hi", none⟩).list = [] :=
  ⟨rfl, rfl, rfl⟩

/-- C2 (amended): in `server.js` the MySQL insert sits in its own inner
`try/catch`, so its failure is logged and the message is still published
on the bus; but a failure of the Redis-list append (the only store write
in `server2.js`) is caught by the outer `catch` and prevents the
publish. -/
theorem C2_store_failure_behavior :
    (∀ (dbF : Bool) (st : ServerState1) (inp : MsgInput) (now : Int),
        validInput inp = true →
        (sendMessage1 ⟨dbF, false, false, false⟩ now st inp).published =
          [(normalize inp now).toJson]) ∧
    (∀ (st : ServerState1) (inp : MsgInput) (now : Int),
        validInput inp = true →
        (sendMessage1 ⟨true, false, false, false⟩ now st inp).state.table = st.table ∧
        (sendMessage1 ⟨true, false, false, false⟩ now st inp).logs = 1) ∧
    (∀ (st : List Json) (inp : MsgInput) (now : Int) (lt pb : Bool),
        validInput inp = true →
        (sendMessage2 ⟨true, lt, pb⟩ now st inp).published = [] ∧
        (sendMessage2 ⟨true, lt, pb⟩ now st inp).list = st) := by
  refine ⟨?_, ?_, ?_⟩
  · intro dbF st inp now h
    cases dbF <;> simp [sendMessage1, h]
  · intro st inp now h
    simp [sendMessage1, h]
  · intro st inp now lt pb h
    simp [sendMessage2, h]

/-- Witness for C2 at a concrete valid submission with a failing MySQL
insert and, separately, a failing Redis append. -/
theorem C2_store_failure_behavior_witness :
    (sendMessage1 ⟨true, false, false, false⟩ 5 ⟨[], 0, []⟩
        ⟨some "alice", some "hi", none⟩).published =
      [(normalize ⟨some "alice", some "hi", none⟩ 5).toJson] ∧
    (sendMessage2 ⟨true, false, false⟩ 5 []
        ⟨some "alice", some "hi", none⟩).published = [] :=
  ⟨C2_store_failure_behavior.1 true ⟨[], 0, []⟩ ⟨some "alice", some "hi", none⟩ 5 rfl,
   (C2_store_failure_behavior.2.2 [] ⟨some "alice", some "hi", none⟩ 5 false false rfl).1⟩

/-! ### Subscriber lemmas -/

theorem runSubscriber_go (parse : String → Option Json) (msgs : List String)
    (acc : List Json × Nat) :
    msgs.foldl
        (fun acc s =>
          let r := onBusMessage parse s
          (acc.1 ++ r.1, acc.2 + r.2)) acc =
      (acc.1 ++ (runSubscriber parse msgs).1, acc.2 + (runSubscriber parse msgs).2) := by
  induction msgs generalizing acc with
  | nil => simp [runSubscriber]
  | cons s rest ih =>
      simp only [runSubscriber, List.foldl_cons]
      rw [ih, ih]
      simp [List.append_assoc, Nat.add_assoc]

theorem runSubscriber_append (parse : String → Option Json) (xs ys : List String) :
    runSubscriber parse (xs ++ ys) =
      ((runSubscriber parse xs).1 ++ (runSubscriber parse ys).1,
       (runSubscriber parse xs).2 + (runSubscriber parse ys).2) := by
  unfold runSubscriber
  rw [List.foldl_append]
  exact runSubscriber_go parse ys _

/-- C9: a bus payload that fails to parse as JSON is logged and dropped:
it contributes no broadcast and one log line, and the subscription keeps
processing the payloads before and after it exactly as it would have
without the malformed one. -/
theorem C9_malformed_payload_dropped :
    ∀ (parse : String → Option Json) (s : String) (pre post : List String),
      parse s = none →
      onBusMessage parse s = ([], 1) ∧
      (runSubscriber parse (pre ++ s :: post)).1 =
        (runSubscriber parse pre).1 ++ (runSubscriber parse post).1 ∧
      (runSubscriber parse (pre ++ s :: post)).2 =
        (runSubscriber parse pre).2 + 1 + (runSubscriber parse post).2 := by
  intro parse s pre post h
  have h1 : onBusMessage parse s = ([], 1) := by simp [onBusMessage, h]
  have hsingle : runSubscriber parse [s] = ([], 1) := by
    simp [runSubscriber, onBusMessage, h]
  have hsplit : pre ++ s :: post = (pre ++ [s]) ++ post := by simp
  constructor
  · exact h1
  constructor
  · rw [hsplit, runSubscriber_append, runSubscriber_append, hsingle]
    simp
  · rw [hsplit, runSubscriber_append, runSubscriber_append, hsingle]

/-- Witness for C9 with a concrete parse function and payload sequence. -/
theorem C9_malformed_payload_dropped_witness :
    onBusMessage (fun s => if s == "ok" then some (Json.num 1) else none) "bad" = ([], 1) ∧
    (runSubscriber (fun s => if s == "ok" then some (Json.num 1) else none)
        (["ok"] ++ "bad" :: ["ok"])).1 =
      (runSubscriber (fun s => if s == "ok" then some (Json.num 1) else none) ["ok"]).1 ++
      (runSubscriber (fun s => if s == "ok" then some (Json.num 1) else none) ["ok"]).1 ∧
    (runSubscriber (fun s => if s == "ok" then some (Json.num 1) else none)
        (["ok"] ++ "bad" :: ["ok"])).2 =
      (runSubscriber (fun s => if s == "ok" then some (Json.num 1) else none) ["ok"]).2 + 1 +
      (runSubscriber (fun s => if s == "ok" then some (Json.num 1) else none) ["ok"]).2 :=
  C9_malformed_payload_dropped (fun s => if s == "ok" then some (Json.num 1) else none)
    "bad" ["ok"] ["ok"] rfl

/-- C10: the delivery path applies no shape validation: every payload that
parses as JSON — whatever value it is, object or not, with or without the
message fields — is broadcast unchanged, in order, with no log line. -/
theorem C10_no_shape_validation :
    ∀ (parse : String → Option Json) (s : String) (j : Json) (pre post : List String),
      parse s = some j →
      onBusMessage parse s = ([j], 0) ∧
      (runSubscriber parse (pre ++ s :: post)).1 =
        (runSubscriber parse pre).1 ++ j :: (runSubscriber parse post).1 := by
  intro parse s j pre post h
  have h1 : onBusMessage parse s = ([j], 0) := by simp [onBusMessage, h]
  have hsingle : runSubscriber parse [s] = ([j], 0) := by
    simp [runSubscriber, onBusMessage, h]
  have hsplit : pre ++ s :: post = (pre ++ [s]) ++ post := by simp
  refine ⟨h1, ?_⟩
  rw [hsplit, runSubscriber_append, runSubscriber_append, hsingle]
  simp

/-! ### Endpoint lemmas -/

theorem jsParseInt_empty : jsParseInt "" = none := rfl

theorem computeLimit_parsed (s : String) (n : Int) (h : jsParseInt s = some n) :
    computeLimit (some s) = some (min n 500) := by
  have hne : (s == "") = false := by
    cases he : s == "" with
    | true =>
        have : s = "" := by simpa using he
        rw [this, jsParseInt_empty] at h
        exact absurd h (by simp)
    | false => rfl
  simp [computeLimit, hne, h]

theorem selectRecent_reverse_sorted (table : List SqlRow) (k : Nat) :
    List.Sorted msgAsc ((selectRecentDesc table k).reverse.map SqlRow.toMsg) := by
  have hs : List.Sorted tsDesc (table.insertionSort tsDesc) :=
    List.sorted_insertionSort tsDesc table
  have ht : List.Pairwise tsDesc (selectRecentDesc table k) :=
    List.Pairwise.sublist (List.take_sublist k _) hs
  have hr : List.Pairwise (fun a b : SqlRow => a.ts ≤ b.ts)
      (selectRecentDesc table k).reverse :=
    List.pairwise_reverse.mpr ht
  exact List.Pairwise.map SqlRow.toMsg (fun _ _ hab => hab) hr

theorem selectRecent_reverse_length (table : List SqlRow) (k : Nat) :
    ((selectRecentDesc table k).reverse.map SqlRow.toMsg).length ≤ k := by
  simp [selectRecentDesc, List.length_take]

/-- C3 counterexample: the `server2.js` endpoint ignores the `limit`
query parameter: called with `limit=1` on a store of two messages it
returns both, exceeding min(1, 500) = 1. -/
theorem C3_counterexample_limit_ignored :
    getMessages2 [Json.null, Json.null] (some "1") = .ok [Json.null, Json.null] ∧
    ¬((2 : Nat) ≤ min 1 500) :=
  ⟨rfl, by decide⟩

/-- C3 (amended): the `server.js` endpoint returns at most min(n, 500)
messages for a parsed non-negative limit n, in non-decreasing timestamp
order, by reversing the descending query result; the `server2.js` endpoint
ignores the limit parameter and returns the last (at most 50) stored
entries in stored (insertion) order. -/
theorem C3_history_order :
    (∀ (table : List SqlRow) (s : String) (n : Int),
        jsParseInt s = some n → 0 ≤ n →
        ∃ msgs, getMessages1 table (some s) = .ok msgs ∧
          msgs.length ≤ (min n 500).toNat ∧ List.Sorted msgAsc msgs) ∧
    (∀ (st : List Json) (q : Option String),
        ∃ l, getMessages2 st q = .ok l ∧ l.length ≤ 50 ∧ l = lastN 50 st) := by
  constructor
  · intro table s n h hn
    have hcl := computeLimit_parsed s n h
    have hk : ¬(min n 500 < 0) := by omega
    refine ⟨(selectRecentDesc table (min n 500).toNat).reverse.map SqlRow.toMsg, ?_, ?_, ?_⟩
    · simp [getMessages1, hcl, hk]
    · exact selectRecent_reverse_length table (min n 500).toNat
    · exact selectRecent_reverse_sorted table (min n 500).toNat
  · intro st q
    refine ⟨lastN 50 st, rfl, ?_, rfl⟩
    simp only [lastN, List.length_drop]
    omega

/-- Witness for C3 at concrete inputs. -/
theorem C3_history_order_witness :
    (∃ msgs, getMessages1 [⟨0, "a", "x", 5⟩] (some "2") = .ok msgs ∧
        msgs.length ≤ ((min 2 500 : Int)).toNat ∧ List.Sorted msgAsc msgs) ∧
    (∃ l, getMessages2 [Json.null] none = .ok l ∧ l.length ≤ 50 ∧
        l = lastN 50 [Json.null]) :=
  ⟨C3_history_order.1 [⟨0, "a", "x", 5⟩] "2" 2 rfl (by decide),
   C3_history_order.2 [Json.null] none⟩

/-- C4 counterexample: a requested limit of `"0"` (non-positive) is not
replaced by the default of 50: the endpoint executes `LIMIT 0` and
returns no rows, while an absent limit returns the stored row. -/
theorem C4_counterexample_zero_limit :
    getMessages1 [⟨0, "a", "x", 5⟩] (some "0") = .ok [] ∧
    getMessages1 [⟨0, "a", "x", 5⟩] none = .ok [⟨"a", "x", 5⟩] :=
  ⟨rfl, rfl⟩

/-- C4 (amended): the limit defaults to 50 when the parameter is absent or
the empty string, and a parsed value is clamped to at most 500; but
non-positive values are not replaced by the default: 0 is used as-is
(`LIMIT 0`, empty result) and a negative value makes the query fail. -/
theorem C4_limit_clamp :
    computeLimit none = some 50 ∧
    computeLimit (some "") = some 50 ∧
    (∀ (s : String) (n : Int), jsParseInt s = some n →
        computeLimit (some s) = some (min n 500) ∧ min n 500 ≤ 500) ∧
    (∀ (table : List SqlRow) (s : String), jsParseInt s = some 0 →
        getMessages1 table (some s) = .ok []) ∧
    (∀ (table : List SqlRow) (s : String) (n : Int), jsParseInt s = some n →
        n < 0 → getMessages1 table (some s) = .error ()) := by
  refine ⟨rfl, rfl, ?_, ?_, ?_⟩
  · intro s n h
    exact ⟨computeLimit_parsed s n h, min_le_right n 500⟩
  · intro table s h
    have hcl := computeLimit_parsed s 0 h
    simp [getMessages1, hcl, selectRecentDesc]
  · intro table s n h hn
    have hcl := computeLimit_parsed s n h
    have hk : min n 500 < 0 := by omega
    simp [getMessages1, hcl, hk]

/-- Witness for C4 at concrete inputs. -/
theorem C4_limit_clamp_witness :
    (computeLimit (some "700") = some (min 700 500) ∧ (min 700 500 : Int) ≤ 500) ∧
    getMessages1 [⟨0, "a", "x", 5⟩] (some "0g") = .ok [] ∧
    getMessages1 [⟨0, "a", "x", 5⟩] (some "-2") = .error () :=
  ⟨C4_limit_clamp.2.2.1 "700" 700 rfl,
   C4_limit_clamp.2.2.2.1 [⟨0, "a", "x", 5⟩] "0g" rfl,
   C4_limit_clamp.2.2.2.2 [⟨0, "a", "x", 5⟩] "-2" (-2) rfl (by decide)⟩

/-- C8 counterexample: a client connecting to `server2.js` while the
stored history is non-empty receives no history-snapshot event: the
connection handler of that variant never emits one. -/
theorem C8_counterexample_no_snapshot :
    ¬∃ h, historyOnConnect2 [Msg.toJson ⟨"alice", "hi", 1⟩] = some h := by
  rintro ⟨h, hh⟩
  simp [historyOnConnect2] at hh

/-- C8 (amended): in `server.js`, a connecting client is sent exactly one
history snapshot iff the table is non-empty, holding at most 20 of the
stored messages in non-decreasing timestamp order; `server2.js` sends no
snapshot at all. -/
theorem C8_history_on_connect :
    (∀ table : List SqlRow, table ≠ [] →
        ∃ h, historyOnConnect1 table = some h ∧ h.length ≤ 20 ∧
          List.Sorted msgAsc h ∧ ∀ m ∈ h, m ∈ table.map SqlRow.toMsg) ∧
    historyOnConnect1 [] = none ∧
    (∀ st : List Json, historyOnConnect2 st = none) := by
  refine ⟨?_, rfl, fun _ => rfl⟩
  intro table htne
  have hlen : ((selectRecentDesc table 20).reverse.map SqlRow.toMsg).length =
      min 20 table.length := by
    simp [selectRecentDesc, List.length_take, List.length_insertionSort]
  have hpos : ((selectRecentDesc table 20).reverse.map SqlRow.toMsg).length ≠ 0 := by
    rw [hlen]
    have : table.length ≠ 0 := fun h0 => htne (List.length_eq_zero.mp h0)
    omega
  refine ⟨(selectRecentDesc table 20).reverse.map SqlRow.toMsg, ?_, ?_, ?_, ?_⟩
  · simp only [historyOnConnect1]
    rw [if_pos hpos]
  · rw [hlen]; omega
  · exact selectRecent_reverse_sorted table 20
  · intro m hm
    rw [List.mem_map] at hm ⊢
    obtain ⟨r, hr, rfl⟩ := hm
    rw [List.mem_reverse] at hr
    have hr2 : r ∈ table.insertionSort tsDesc :=
      (List.take_sublist 20 _).subset hr
    exact ⟨r, (List.perm_insertionSort tsDesc table).subset hr2, rfl⟩

/-- Witness for C8 at a concrete one-row table. -/
theorem C8_history_on_connect_witness :
    ∃ h, historyOnConnect1 [⟨0, "a", "x", 5⟩] = some h ∧ h.length ≤ 20 ∧
      List.Sorted msgAsc h ∧
      ∀ m ∈ h, m ∈ ([⟨0, "a", "x", 5⟩] : List SqlRow).map SqlRow.toMsg :=
  C8_history_on_connect.1 [⟨0, "a", "x", 5⟩] (by simp)

/-- Witness for C10 with a non-object JSON payload (a bare number). -/
theorem C10_no_shape_validation_witness :
    onBusMessage (fun _ => some (Json.num 5)) "5" = ([Json.num 5], 0) ∧
    (runSubscriber (fun _ => some (Json.num 5)) ([] ++ "5" :: [])).1 =
      (runSubscriber (fun _ => some (Json.num 5)) []).1 ++
        Json.num 5 :: (runSubscriber (fun _ => some (Json.num 5)) []).1 :=
  C10_no_shape_validation (fun _ => some (Json.num 5)) "5" (Json.num 5) [] [] rfl

end RedisChat
